import Mathlib

/-!
# Verification of the Casting Agency auth core

A shallow embedding of the authentication/authorization core of the
Casting Agency service (`auth.py`, plus the `AuthError` boundary handler
in `app.py`), together with theorems settling the specification claims.

Conventions of the embedding:
* Python dict-like JSON values are modelled by `PyVal`; claim payloads are
  association lists `ClaimsPayload`.
* A Python function that may raise is modelled with an explicit outcome
  type: `Except AuthError` when only `AuthError` can escape, and
  `POutcome` when an unstructured Python exception can also escape
  (constructor `exn`).
* The external `jose` JWT library and the remote JWKS fetch are external
  collaborators: their results enter as explicit inputs
  (`TokenModel`, `Except String Jwks`), and `joseDecode` models the
  library's verification contract from the spec.
-/

namespace CastingAgency

/-- A Python/JSON value, as far as the auth core inspects one.
List values carry permission strings (the only lists the core reads). -/
inductive PyVal where
  | pstr (s : String)
  | pint (n : Int)
  | pbool (b : Bool)
  | plist (xs : List String)
  | pnone
deriving DecidableEq, Repr

/-- Python `isinstance(v, list)`. -/
def PyVal.isList : PyVal → Bool
  | PyVal.plist _ => true
  | _ => false

/-- A decoded JWT claims payload: a dict from claim name to value. -/
abbrev ClaimsPayload := List (String × PyVal)

/-- Python `d.get(k)`: first binding of the key, if any. -/
def lookupVal (payload : ClaimsPayload) (k : String) : Option PyVal :=
  (payload.find? (fun kv => kv.1 == k)).map (fun kv => kv.2)

/-- Python `d.get(k, default)`. -/
def dictGet (payload : ClaimsPayload) (k : String) (dflt : PyVal) : PyVal :=
  (lookupVal payload k).getD dflt

/-- The `error` dict carried by an `AuthError`: machine-readable code and
human-readable description. -/
structure ErrorBody where
  code : String
  description : String
deriving DecidableEq, Repr

/-- `auth.AuthError`: a tagged auth failure with an error dict and an
HTTP status code. -/
structure AuthError where
  error : ErrorBody
  status_code : Nat
deriving DecidableEq, Repr

/-- Outcome of a Python call that may raise: a value, a raised
`AuthError`, or an unstructured Python exception escaping (`exn`). -/
inductive POutcome (α : Type) where
  | ok (a : α)
  | authError (e : AuthError)
  | exn (msg : String)
deriving DecidableEq, Repr

/-- Python `str` whitespace (the classes `str.split()` splits on). -/
def pyIsSpace (c : Char) : Bool :=
  c = ' ' || c = '\t' || c = '\n' || c = '\x0d' || c = '\x0b' || c = '\x0c'

/-- Helper for `pySplit`: walk the characters, accumulating the current
(reversed) word, emitting it at each whitespace boundary. -/
def pySplitAux : List Char → List Char → List String
  | [], acc => if acc.isEmpty then [] else [String.mk acc.reverse]
  | c :: cs, acc =>
      if pyIsSpace c then
        (if acc.isEmpty then [] else [String.mk acc.reverse]) ++ pySplitAux cs []
      else
        pySplitAux cs (c :: acc)

/-- Python `s.split()` with no separator: split on whitespace runs,
discarding empty pieces. -/
def pySplit (s : String) : List String := pySplitAux s.data []

/-- Python `s.lower()` (on the ASCII scheme words compared here). -/
def pyLower (s : String) : String := String.mk (s.data.map Char.toLower)

/-- `auth.get_token_auth_header`, over the request's `Authorization`
header value (`none` when the header is absent).  Mirrors the source:
a missing or falsy (empty) header raises `authorization_header_missing`;
then the header is split on whitespace and `parts[0]` is read — on a
non-empty all-whitespace header the parts list is empty and the source
raises an uncaught `IndexError`, modelled by `POutcome.exn`. -/
def get_token_auth_header (auth : Option String) : POutcome String :=
  match auth with
  | none =>
      POutcome.authError
        (AuthError.mk
          (ErrorBody.mk "authorization_header_missing" "Authorization header is expected.") 401)
  | some a =>
      if a = "" then
        POutcome.authError
          (AuthError.mk
            (ErrorBody.mk "authorization_header_missing" "Authorization header is expected.") 401)
      else
        match pySplit a with
        | [] => POutcome.exn "IndexError: list index out of range"
        | p0 :: rest =>
            if pyLower p0 ≠ "bearer" then
              POutcome.authError
                (AuthError.mk
                  (ErrorBody.mk "invalid_header" "Authorization header must start with Bearer.")
                  401)
            else if rest.length = 0 then
              POutcome.authError
                (AuthError.mk (ErrorBody.mk "invalid_header" "Token not found.") 401)
            else if 1 < rest.length then
              POutcome.authError
                (AuthError.mk
                  (ErrorBody.mk "invalid_header" "Authorization header must be Bearer token.")
                  401)
            else
              match rest with
              | p1 :: _ => POutcome.ok p1
              | [] => POutcome.exn "IndexError: list index out of range"

/-- `auth.check_permissions`: `payload.get("permissions", [])`, a 400
`invalid_claims` error when the value is not a list, a 403 `unauthorized`
error when the required permission is not a member, `True` otherwise. -/
def check_permissions (permission : String) (payload : ClaimsPayload) :
    Except AuthError Bool :=
  match dictGet payload "permissions" (PyVal.plist []) with
  | PyVal.plist xs =>
      if permission ∈ xs then
        Except.ok true
      else
        Except.error
          (AuthError.mk (ErrorBody.mk "unauthorized" "Permission not found.") 403)
  | _ =>
      Except.error
        (AuthError.mk (ErrorBody.mk "invalid_claims" "Permissions claim must be a list.") 400)

/-- Process-wide configuration, read from the environment at import in
the source (`AUTH0_DOMAIN`, `ALGORITHMS`, `API_AUDIENCE`). -/
structure Config where
  auth0_domain : String
  algorithms : List String
  api_audience : String

/-- The issuer string the source passes to `jwt.decode`. -/
def issuerOf (cfg : Config) : String :=
  "https://" ++ cfg.auth0_domain ++ "/"

/-- One JWKS entry, as far as the source reads it (`key.get(...)`). -/
structure Jwk where
  kid : Option String
  kty : Option String
  use : Option String
  n : Option String
  e : Option String
deriving DecidableEq, Repr

/-- The dict the source builds from a matched JWKS entry. -/
structure RsaKey where
  kty : Option String
  kid : Option String
  use : Option String
  n : Option String
  e : Option String
deriving DecidableEq, Repr

/-- The fetched key set (`jwks.get("keys", [])`; a response without a
`keys` entry is the empty list). -/
structure Jwks where
  keys : List Jwk

/-- The `rsa_key` dict built from a JWKS entry. -/
def mkRsaKey (k : Jwk) : RsaKey :=
  RsaKey.mk k.kty k.kid k.use k.n k.e

/-- The source's key scan: iterate over the key set, compare each entry's
`kid` to the token header's `kid` (Python `==` on possibly-missing
values, so two absent kids match), build `rsa_key` from the first match
and break; the built dict always has entries, hence is truthy. -/
def findRsaKey (keys : List Jwk) (hkid : Option String) : Option RsaKey :=
  match keys.find? (fun k => k.kid == hkid) with
  | some k => some (mkRsaKey k)
  | none => none

/-- Abstract model of what the external `jose` library finds in a token
string: whether the header segment decodes, the header's `kid`, whether
the whole token is structurally decodable, the signing algorithm, which
keys its signature verifies under, and the claims it carries. -/
structure TokenModel where
  headerOk : Bool
  kid : Option String
  structureOk : Bool
  alg : String
  sigOk : RsaKey → Bool
  aud : String
  iss : String
  expired : Bool
  payload : ClaimsPayload

/-- How `jose.jwt.decode` can end: a payload, or one of the exception
classes the source catches. -/
inductive JoseResult where
  | ok (payload : ClaimsPayload)
  | expiredSignature
  | claimsError
  | otherError
deriving Repr

/-- Modelled from the spec: the external `jose.jwt.decode` contract
(TokenVerifier steps 5–7).  Signature, structure and algorithm are
checked first (any failure is a generic `JWTError`), then audience and
issuer (`JWTClaimsError`), then expiry (`ExpiredSignatureError`). -/
def joseDecode (tok : TokenModel) (key : RsaKey) (algs : List String)
    (aud iss : String) : JoseResult :=
  if ¬ tok.structureOk ∨ tok.alg ∉ algs ∨ ¬ tok.sigOk key then
    JoseResult.otherError
  else if tok.aud ≠ aud ∨ tok.iss ≠ iss then
    JoseResult.claimsError
  else if tok.expired then
    JoseResult.expiredSignature
  else
    JoseResult.ok tok.payload

/-- The source's `try/except` around `jwt.decode`, mapping each `jose`
exception class to its `AuthError`. -/
def joseOutcome : JoseResult → POutcome ClaimsPayload
  | JoseResult.ok payload => POutcome.ok payload
  | JoseResult.expiredSignature =>
      POutcome.authError (AuthError.mk (ErrorBody.mk "token_expired" "Token expired.") 401)
  | JoseResult.claimsError =>
      POutcome.authError (AuthError.mk (ErrorBody.mk "invalid_claims" "Incorrect claims.") 401)
  | JoseResult.otherError =>
      POutcome.authError (AuthError.mk (ErrorBody.mk "invalid_token" "Token is invalid.") 401)

/-- `auth.verify_decode_jwt`.  `fetch` is the result of the JWKS request
(`requests.get(...).json()`, whose own failure escapes uncaught), and
`interp` is the external world's reading of token strings (what `jose`
would find in each).  Mirrors the source order: config check, fetch,
`jwt.get_unverified_header` (outside any `try`, so a header that does
not decode escapes as an unstructured `jose` error), key scan, then
`jwt.decode` inside `try/except`. -/
def verify_decode_jwt (cfg : Config) (fetch : Except String Jwks)
    (interp : String → TokenModel) (token : String) : POutcome ClaimsPayload :=
  if cfg.auth0_domain = "" ∨ cfg.api_audience = "" then
    POutcome.authError
      (AuthError.mk
        (ErrorBody.mk "configuration_error"
          "Missing Auth0 config (AUTH0_DOMAIN / API_AUDIENCE).") 500)
  else
    match fetch with
    | Except.error msg => POutcome.exn msg
    | Except.ok jwks =>
        let tok := interp token
        if ¬ tok.headerOk then
          POutcome.exn "jose.exceptions.JWTError: Error decoding token headers."
        else
          match findRsaKey jwks.keys tok.kid with
          | none =>
              POutcome.authError
                (AuthError.mk
                  (ErrorBody.mk "invalid_header" "Unable to find the appropriate key.") 401)
          | some key =>
              joseOutcome
                (joseDecode tok key cfg.algorithms cfg.api_audience (issuerOf cfg))

/-- `auth.requires_auth`'s wrapper around a protected operation `f`,
instrumented with the number of times `f` is invoked.  Mirrors the
source: extract the token from the header, verify and decode it, check
the permission, then call `f(payload, *args)`; any raise propagates and
`f` is not called. -/
def requires_auth {α β : Type} (cfg : Config) (fetch : Except String Jwks)
    (interp : String → TokenModel) (permission : String)
    (f : ClaimsPayload → α → β) (authHeader : Option String) (args : α) :
    POutcome β × Nat :=
  match get_token_auth_header authHeader with
  | POutcome.exn m => (POutcome.exn m, 0)
  | POutcome.authError err => (POutcome.authError err, 0)
  | POutcome.ok token =>
      match verify_decode_jwt cfg fetch interp token with
      | POutcome.exn m => (POutcome.exn m, 0)
      | POutcome.authError err => (POutcome.authError err, 0)
      | POutcome.ok payload =>
          match check_permissions permission payload with
          | Except.error err => (POutcome.authError err, 0)
          | Except.ok _ => (POutcome.ok (f payload args), 1)

/-- What the auth-error handler may place in the JSON `message` field:
a plain string (the generic handlers) or an error dict (this one). -/
inductive MsgVal where
  | mstr (s : String)
  | mobj (body : ErrorBody)
deriving DecidableEq, Repr

/-- The JSON body the error handlers build. -/
structure ErrResponse where
  success : Bool
  error : Nat
  message : MsgVal
deriving DecidableEq, Repr

/-- `app.handle_auth_error`: the `AuthError` boundary handler, returning
the JSON body and the HTTP status.  The source passes `ex.error` — the
whole error dict — as `message`. -/
def handle_auth_error (ex : AuthError) : ErrResponse × Nat :=
  (ErrResponse.mk false ex.status_code (MsgVal.mobj ex.error), ex.status_code)

/-! ## Theorems -/

/-- **C1** (counterexample). The claim says an empty required permission
makes `check_permissions` succeed unconditionally.  It is false: on the
empty payload (whose `permissions` default is the empty list) the
empty permission is looked up by ordinary membership, is not found, and
the check raises 403 `unauthorized` instead of succeeding. -/
theorem C1_counterexample :
    check_permissions "" [] =
      Except.error
        (AuthError.mk (ErrorBody.mk "unauthorized" "Permission not found.") 403) ∧
    check_permissions "" [] ≠ Except.ok true := by
  have h : check_permissions "" [] =
      Except.error
        (AuthError.mk (ErrorBody.mk "unauthorized" "Permission not found.") 403) := rfl
  exact ⟨h, by rw [h]; intro hc; exact Except.noConfusion hc⟩

/-- **C1** (amended). The empty required permission is not treated
specially: `check_permissions "" payload` succeeds exactly when the
payload's `permissions` value (defaulting to the empty list) is a list
containing the empty string; for the typical payload it fails with 403,
so empty permission does not grant authenticated-only access. -/
theorem C1_empty_permission_not_special (payload : ClaimsPayload) :
    check_permissions "" payload = Except.ok true ↔
      ∃ xs, dictGet payload "permissions" (PyVal.plist []) = PyVal.plist xs ∧ "" ∈ xs := by
  rcases hd : dictGet payload "permissions" (PyVal.plist []) with s | n | b | xs | _ <;>
    simp [check_permissions, hd]

/-- **C5**. The two degenerate shapes of the `permissions` claim are not
unified: a present non-list value raises 400 `invalid_claims`, while an
absent entry defaults to the empty list, so the (non-empty) required
permission is not found and the check raises 403 `unauthorized`. -/
theorem C5_permissions_claim_asymmetry (perm : String) (payload : ClaimsPayload) :
    (∀ v, lookupVal payload "permissions" = some v → v.isList = false →
        check_permissions perm payload =
          Except.error
            (AuthError.mk
              (ErrorBody.mk "invalid_claims" "Permissions claim must be a list.") 400)) ∧
    (lookupVal payload "permissions" = none → perm ≠ "" →
        check_permissions perm payload =
          Except.error
            (AuthError.mk (ErrorBody.mk "unauthorized" "Permission not found.") 403)) := by
  refine ⟨?_, ?_⟩
  · intro v hv hvl
    have hd : dictGet payload "permissions" (PyVal.plist []) = v := by
      simp [dictGet, hv]
    rcases v with s | n | b | xs | _
    · simp [check_permissions, hd]
    · simp [check_permissions, hd]
    · simp [check_permissions, hd]
    · simp [PyVal.isList] at hvl
    · simp [check_permissions, hd]
  · intro hnone _
    have hd : dictGet payload "permissions" (PyVal.plist []) = PyVal.plist [] := by
      simp [dictGet, hnone]
    simp [check_permissions, hd]

/-- **C5** (witness). A payload carrying a string-valued `permissions`
claim raises 400, and a payload with no `permissions` claim raises 403. -/
theorem C5_permissions_claim_asymmetry_witness :
    check_permissions "get:actors" [("permissions", PyVal.pstr "x")] =
      Except.error
        (AuthError.mk
          (ErrorBody.mk "invalid_claims" "Permissions claim must be a list.") 400) ∧
    check_permissions "get:actors" [] =
      Except.error
        (AuthError.mk (ErrorBody.mk "unauthorized" "Permission not found.") 403) := by
  constructor
  · exact (C5_permissions_claim_asymmetry "get:actors" _).1 (PyVal.pstr "x")
      (by decide) (by decide)
  · exact (C5_permissions_claim_asymmetry "get:actors" _).2 (by decide) (by decide)

/-- **C4** (counterexample). The claim says only an absent header yields
`authorization_header_missing`, and that a present header is split, with
fewer than 2 parts yielding `invalid_header`.  A present but empty
header value is a counterexample: it splits into 0 parts, yet the code
raises `authorization_header_missing`, not `invalid_header`. -/
theorem C4_counterexample :
    get_token_auth_header (some "") =
      POutcome.authError
        (AuthError.mk
          (ErrorBody.mk "authorization_header_missing" "Authorization header is expected.")
          401) ∧
    "authorization_header_missing" ≠ "invalid_header" :=
  ⟨rfl, by decide⟩

/-- **C4** (amended). `get_token_auth_header` raises 401
`authorization_header_missing` when the header is absent **or empty**;
on a non-empty all-whitespace header (0 parts) an unstructured
`IndexError` escapes instead of an `AuthError`; otherwise it raises 401
`invalid_header` when the first word is not `bearer` case-insensitively,
or when there are fewer or more than 2 parts, and returns the second
part when there are exactly 2 with scheme `bearer`. -/
theorem C4_header_extraction (auth : Option String) :
    (auth = none ∨ auth = some "" →
        get_token_auth_header auth =
          POutcome.authError
            (AuthError.mk
              (ErrorBody.mk "authorization_header_missing"
                "Authorization header is expected.") 401)) ∧
    (∀ a, auth = some a → a ≠ "" → pySplit a = [] →
        get_token_auth_header auth = POutcome.exn "IndexError: list index out of range") ∧
    (∀ a p0 rest, auth = some a → a ≠ "" → pySplit a = p0 :: rest →
        pyLower p0 ≠ "bearer" →
        get_token_auth_header auth =
          POutcome.authError
            (AuthError.mk
              (ErrorBody.mk "invalid_header" "Authorization header must start with Bearer.")
              401)) ∧
    (∀ a p0, auth = some a → a ≠ "" → pySplit a = [p0] → pyLower p0 = "bearer" →
        get_token_auth_header auth =
          POutcome.authError
            (AuthError.mk (ErrorBody.mk "invalid_header" "Token not found.") 401)) ∧
    (∀ a p0 p1 rest, auth = some a → a ≠ "" → pySplit a = p0 :: p1 :: rest →
        pyLower p0 = "bearer" →
        (rest ≠ [] →
            get_token_auth_header auth =
              POutcome.authError
                (AuthError.mk
                  (ErrorBody.mk "invalid_header" "Authorization header must be Bearer token.")
                  401)) ∧
        (rest = [] → get_token_auth_header auth = POutcome.ok p1)) := by
  refine ⟨?_, ?_, ?_, ?_, ?_⟩
  · rintro (rfl | rfl) <;> rfl
  · rintro a rfl ha hsplit
    simp [get_token_auth_header, ha, hsplit]
  · rintro a p0 rest rfl ha hsplit hlow
    simp [get_token_auth_header, ha, hsplit, hlow]
  · rintro a p0 rfl ha hsplit hlow
    simp [get_token_auth_header, ha, hsplit, hlow]
  · rintro a p0 p1 rest rfl ha hsplit hlow
    constructor
    · intro hrest
      have hlen : 1 < (p1 :: rest).length := by
        cases rest with
        | nil => exact absurd rfl hrest
        | cons x xs => simp
      simp [get_token_auth_header, ha, hsplit, hlow, hlen, Nat.pos_iff_ne_zero]
      exact hrest
    · rintro rfl
      simp [get_token_auth_header, ha, hsplit, hlow]

/-- **C4** (witness). Concrete headers: `"Bearer abc"` yields the token
`"abc"`; `"Token abc"` is rejected with 401 `invalid_header`. -/
theorem C4_header_extraction_witness :
    get_token_auth_header (some "Bearer abc") = POutcome.ok "abc" ∧
    get_token_auth_header (some "Token abc") =
      POutcome.authError
        (AuthError.mk
          (ErrorBody.mk "invalid_header" "Authorization header must start with Bearer.")
          401) := by
  constructor
  · exact ((C4_header_extraction (some "Bearer abc")).2.2.2.2 "Bearer abc" "Bearer" "abc" []
      rfl (by decide) (by decide) (by decide)).2 rfl
  · exact (C4_header_extraction (some "Token abc")).2.2.1 "Token abc" "Token" ["abc"]
      rfl (by decide) (by decide) (by decide)

/-- **C10** (code bug). On a present, non-empty, all-whitespace
`Authorization` header the split yields no parts and the source reads
`parts[0]`: an unstructured `IndexError` escapes instead of the
structured `AuthError` the claim (and the spec's error-handling design)
requires. -/
theorem C10_whitespace_header_crash :
    get_token_auth_header (some " ") = POutcome.exn "IndexError: list index out of range" ∧
    ∀ e : AuthError,
      get_token_auth_header (some " ") ≠ POutcome.authError e := by
  refine ⟨rfl, ?_⟩
  intro e h
  exact POutcome.noConfusion h

/-- **C7**. When the issuer domain or the API audience is empty,
`verify_decode_jwt` raises 500 `configuration_error` for every token —
and for every possible fetch outcome, including a failing fetch, which
shows the key-set fetch is never consulted (the check runs first). -/
theorem C7_missing_config_fails_before_fetch (cfg : Config)
    (h : cfg.auth0_domain = "" ∨ cfg.api_audience = "") :
    ∀ (fetch : Except String Jwks) (interp : String → TokenModel) (token : String),
      verify_decode_jwt cfg fetch interp token =
        POutcome.authError
          (AuthError.mk
            (ErrorBody.mk "configuration_error"
              "Missing Auth0 config (AUTH0_DOMAIN / API_AUDIENCE).") 500) := by
  intro fetch interp token
  unfold verify_decode_jwt
  rw [if_pos h]

/-- **C7** (witness). With an empty issuer domain, a token fails with 500
even though the fetch itself errored. -/
theorem C7_missing_config_fails_before_fetch_witness :
    verify_decode_jwt (Config.mk "" ["RS256"] "casting")
        (Except.error "requests.exceptions.ConnectionError")
        (fun _ => TokenModel.mk true none true "RS256" (fun _ => false) "" "" false [])
        "sometoken" =
      POutcome.authError
        (AuthError.mk
          (ErrorBody.mk "configuration_error"
            "Missing Auth0 config (AUTH0_DOMAIN / API_AUDIENCE).") 500) :=
  C7_missing_config_fails_before_fetch _ (Or.inl rfl) _ _ _

/-- **C6**. With valid configuration and a fetched key set, the key scan
is a linear first-match search on `kid`: if no entry's `kid` equals the
token header's `kid`, verification raises 401 `invalid_header`; if the
key set decomposes as a prefix block with no match followed by a
matching entry `k`, the verifier's result is exactly `jwt.decode` run
with `k`'s key material — the first match wins, duplicates later in the
list are ignored. -/
theorem C6_key_scan_first_match (cfg : Config) (jwks : Jwks)
    (interp : String → TokenModel) (token : String) (tok : TokenModel)
    (hdom : cfg.auth0_domain ≠ "") (haud : cfg.api_audience ≠ "")
    (hinterp : interp token = tok) (hhd : tok.headerOk = true) :
    (jwks.keys.find? (fun k => k.kid == tok.kid) = none →
        verify_decode_jwt cfg (Except.ok jwks) interp token =
          POutcome.authError
            (AuthError.mk
              (ErrorBody.mk "invalid_header" "Unable to find the appropriate key.") 401)) ∧
    (∀ ks1 k ks2, jwks.keys = ks1 ++ k :: ks2 →
        (∀ k2 ∈ ks1, (k2.kid == tok.kid) = false) → (k.kid == tok.kid) = true →
        verify_decode_jwt cfg (Except.ok jwks) interp token =
          joseOutcome
            (joseDecode tok (mkRsaKey k) cfg.algorithms cfg.api_audience (issuerOf cfg))) := by
  constructor
  · intro hfind
    simp [verify_decode_jwt, hdom, haud, hinterp, hhd, findRsaKey, hfind]
  · intro ks1 k ks2 hkeys hnomatch hmatch
    have hfind : jwks.keys.find? (fun k2 => k2.kid == tok.kid) = some k := by
      rw [hkeys, List.find?_append, List.find?_eq_none.mpr (by simpa using hnomatch)]
      simp [List.find?_cons, hmatch]
    simp [verify_decode_jwt, hdom, haud, hinterp, hhd, findRsaKey, hfind]

/-- **C6** (witness). With a two-entry key set whose entries share the
token's `kid`, the first entry's material is used; and with a key set
whose only entry has a different `kid`, verification fails 401. -/
theorem C6_key_scan_first_match_witness :
    verify_decode_jwt (Config.mk "dom.auth0.com" ["RS256"] "casting")
        (Except.ok
          (Jwks.mk
            [Jwk.mk (some "k1") (some "RSA") (some "sig") (some "n1") (some "AQAB"),
             Jwk.mk (some "k1") (some "RSA") (some "sig") (some "n2") (some "AQAB")]))
        (fun _ =>
          TokenModel.mk true (some "k1") true "RS256"
            (fun key => key.n == some "n1") "casting" "https://dom.auth0.com/" false
            [("permissions", PyVal.plist ["get:actors"])])
        "tok" =
      POutcome.ok [("permissions", PyVal.plist ["get:actors"])] ∧
    verify_decode_jwt (Config.mk "dom.auth0.com" ["RS256"] "casting")
        (Except.ok (Jwks.mk [Jwk.mk (some "k2") (some "RSA") (some "sig") (some "n1") (some "AQAB")]))
        (fun _ =>
          TokenModel.mk true (some "k1") true "RS256"
            (fun key => key.n == some "n1") "casting" "https://dom.auth0.com/" false
            [("permissions", PyVal.plist ["get:actors"])])
        "tok" =
      POutcome.authError
        (AuthError.mk
          (ErrorBody.mk "invalid_header" "Unable to find the appropriate key.") 401) := by
  constructor
  · exact ((C6_key_scan_first_match _ _ _ "tok" _ (by decide) (by decide) rfl rfl).2
      [] (Jwk.mk (some "k1") (some "RSA") (some "sig") (some "n1") (some "AQAB"))
      [Jwk.mk (some "k1") (some "RSA") (some "sig") (some "n2") (some "AQAB")]
      rfl (by simp) (by decide)).trans rfl
  · exact (C6_key_scan_first_match _ _ _ "tok" _ (by decide) (by decide) rfl rfl).1 (by decide)

/-- **C8**. For a validly-signed token (structure decodes, algorithm
configured, signature verifies under the matched key): an audience that
differs from the configured API audience or an issuer that differs from
`https://<issuer-domain>/` raises 401 `invalid_claims`; with audience
and issuer correct, a past expiry raises 401 `token_expired`. -/
theorem C8_claims_and_expiry_checks (cfg : Config) (jwks : Jwks)
    (interp : String → TokenModel) (token : String) (tok : TokenModel) (k : Jwk)
    (hdom : cfg.auth0_domain ≠ "") (haud : cfg.api_audience ≠ "")
    (hinterp : interp token = tok) (hhd : tok.headerOk = true)
    (hfind : jwks.keys.find? (fun k2 => k2.kid == tok.kid) = some k)
    (hstruct : tok.structureOk = true) (halg : tok.alg ∈ cfg.algorithms)
    (hsig : tok.sigOk (mkRsaKey k) = true) :
    (tok.aud ≠ cfg.api_audience ∨ tok.iss ≠ issuerOf cfg →
        verify_decode_jwt cfg (Except.ok jwks) interp token =
          POutcome.authError
            (AuthError.mk (ErrorBody.mk "invalid_claims" "Incorrect claims.") 401)) ∧
    (tok.aud = cfg.api_audience → tok.iss = issuerOf cfg → tok.expired = true →
        verify_decode_jwt cfg (Except.ok jwks) interp token =
          POutcome.authError
            (AuthError.mk (ErrorBody.mk "token_expired" "Token expired.") 401)) := by
  have hver : verify_decode_jwt cfg (Except.ok jwks) interp token =
      joseOutcome (joseDecode tok (mkRsaKey k) cfg.algorithms cfg.api_audience (issuerOf cfg)) := by
    simp [verify_decode_jwt, hdom, haud, hinterp, hhd, findRsaKey, hfind]
  constructor
  · intro hmm
    rw [hver]
    simp [joseDecode, joseOutcome, hstruct, halg, hsig, hmm]
  · intro haudEq hissEq hexp
    rw [hver]
    simp [joseDecode, joseOutcome, hstruct, halg, hsig, haudEq, hissEq, hexp]

/-- **C8** (witness). With a one-key set and a validly-signed token
model: the wrong audience yields 401 `invalid_claims`, and an expired
but otherwise correct token yields 401 `token_expired`. -/
theorem C8_claims_and_expiry_checks_witness :
    verify_decode_jwt (Config.mk "dom.auth0.com" ["RS256"] "casting")
        (Except.ok (Jwks.mk [Jwk.mk (some "k1") (some "RSA") (some "sig") (some "n1") (some "AQAB")]))
        (fun _ =>
          TokenModel.mk true (some "k1") true "RS256" (fun _ => true)
            "otherapi" "https://dom.auth0.com/" false [])
        "tok" =
      POutcome.authError
        (AuthError.mk (ErrorBody.mk "invalid_claims" "Incorrect claims.") 401) ∧
    verify_decode_jwt (Config.mk "dom.auth0.com" ["RS256"] "casting")
        (Except.ok (Jwks.mk [Jwk.mk (some "k1") (some "RSA") (some "sig") (some "n1") (some "AQAB")]))
        (fun _ =>
          TokenModel.mk true (some "k1") true "RS256" (fun _ => true)
            "casting" "https://dom.auth0.com/" true [])
        "tok" =
      POutcome.authError
        (AuthError.mk (ErrorBody.mk "token_expired" "Token expired.") 401) := by
  constructor
  · exact (C8_claims_and_expiry_checks _ _ _ "tok" _
      (Jwk.mk (some "k1") (some "RSA") (some "sig") (some "n1") (some "AQAB"))
      (by decide) (by decide) rfl rfl (by decide) rfl (by decide) rfl).1
      (Or.inl (by decide))
  · exact (C8_claims_and_expiry_checks _ _ _ "tok" _
      (Jwk.mk (some "k1") (some "RSA") (some "sig") (some "n1") (some "AQAB"))
      (by decide) (by decide) rfl rfl (by decide) rfl (by decide) rfl).2
      rfl rfl rfl

/-- **C2** (code bug).  The claim says every structurally invalid token
fails with a 401 `invalid_token` `AuthError` and never with an
unstructured exception.  But `jwt.get_unverified_header` is called
outside the `try/except` in `verify_decode_jwt`: a token whose header
segment does not decode makes the `jose` error escape unstructured.
(The protected operation is still not invoked; the claimed error shape
is what fails.)  Tokens that reach `jwt.decode` and fail structure,
signature or algorithm checks do get the 401 `invalid_token` error. -/
theorem C2_header_decode_escapes_unstructured :
    verify_decode_jwt (Config.mk "dom.auth0.com" ["RS256"] "casting")
        (Except.ok (Jwks.mk [Jwk.mk (some "k1") (some "RSA") (some "sig") (some "n1") (some "AQAB")]))
        (fun _ => TokenModel.mk false none false "" (fun _ => false) "" "" false [])
        "not-a-jwt" =
      POutcome.exn "jose.exceptions.JWTError: Error decoding token headers." ∧
    (∀ e : AuthError,
      verify_decode_jwt (Config.mk "dom.auth0.com" ["RS256"] "casting")
          (Except.ok (Jwks.mk [Jwk.mk (some "k1") (some "RSA") (some "sig") (some "n1") (some "AQAB")]))
          (fun _ => TokenModel.mk false none false "" (fun _ => false) "" "" false [])
          "not-a-jwt" ≠
        POutcome.authError e) ∧
    verify_decode_jwt (Config.mk "dom.auth0.com" ["RS256"] "casting")
        (Except.ok (Jwks.mk [Jwk.mk (some "k1") (some "RSA") (some "sig") (some "n1") (some "AQAB")]))
        (fun _ =>
          TokenModel.mk true (some "k1") true "RS256" (fun _ => false)
            "casting" "https://dom.auth0.com/" false [])
        "forged-but-parsable" =
      POutcome.authError
        (AuthError.mk (ErrorBody.mk "invalid_token" "Token is invalid.") 401) := by
  refine ⟨rfl, ?_, rfl⟩
  intro e h
  exact POutcome.noConfusion h

/-- **C3**. The gate runs extractor, then verifier, then permission
check, then the operation, short-circuiting: whichever stage raises
(structured or not) determines the gate's outcome and the operation is
invoked 0 times; when all three stages succeed, the outcome is the
operation's result on the decoded claims payload as the leading
argument, and it is invoked exactly once. -/
theorem C3_gate_composition {α β : Type} (cfg : Config) (fetch : Except String Jwks)
    (interp : String → TokenModel) (permission : String) (f : ClaimsPayload → α → β)
    (hdr : Option String) (args : α) :
    (∀ e, get_token_auth_header hdr = POutcome.authError e →
        requires_auth cfg fetch interp permission f hdr args = (POutcome.authError e, 0)) ∧
    (∀ m, get_token_auth_header hdr = POutcome.exn m →
        requires_auth cfg fetch interp permission f hdr args = (POutcome.exn m, 0)) ∧
    (∀ token e, get_token_auth_header hdr = POutcome.ok token →
        verify_decode_jwt cfg fetch interp token = POutcome.authError e →
        requires_auth cfg fetch interp permission f hdr args = (POutcome.authError e, 0)) ∧
    (∀ token m, get_token_auth_header hdr = POutcome.ok token →
        verify_decode_jwt cfg fetch interp token = POutcome.exn m →
        requires_auth cfg fetch interp permission f hdr args = (POutcome.exn m, 0)) ∧
    (∀ token payload e, get_token_auth_header hdr = POutcome.ok token →
        verify_decode_jwt cfg fetch interp token = POutcome.ok payload →
        check_permissions permission payload = Except.error e →
        requires_auth cfg fetch interp permission f hdr args = (POutcome.authError e, 0)) ∧
    (∀ token payload b, get_token_auth_header hdr = POutcome.ok token →
        verify_decode_jwt cfg fetch interp token = POutcome.ok payload →
        check_permissions permission payload = Except.ok b →
        requires_auth cfg fetch interp permission f hdr args =
          (POutcome.ok (f payload args), 1)) := by
  refine ⟨?_, ?_, ?_, ?_, ?_, ?_⟩
  · intro e h1
    simp [requires_auth, h1]
  · intro m h1
    simp [requires_auth, h1]
  · intro token e h1 h2
    simp [requires_auth, h1, h2]
  · intro token m h1 h2
    simp [requires_auth, h1, h2]
  · intro token payload e h1 h2 h3
    simp [requires_auth, h1, h2, h3]
  · intro token payload b h1 h2 h3
    simp [requires_auth, h1, h2, h3]

/-- **C3** (witness). End to end on concrete data: with a good header,
key set and token carrying `get:actors`, the gate invokes the operation
exactly once on the decoded payload; with the header absent, the gate
returns the 401 `authorization_header_missing` error and the operation
is invoked 0 times. -/
theorem C3_gate_composition_witness :
    requires_auth (Config.mk "dom.auth0.com" ["RS256"] "casting")
        (Except.ok (Jwks.mk [Jwk.mk (some "k1") (some "RSA") (some "sig") (some "n1") (some "AQAB")]))
        (fun _ =>
          TokenModel.mk true (some "k1") true "RS256" (fun _ => true)
            "casting" "https://dom.auth0.com/" false
            [("permissions", PyVal.plist ["get:actors"])])
        "get:actors" (fun payload (_ : Nat) => payload) (some "Bearer abc") 0 =
      (POutcome.ok [("permissions", PyVal.plist ["get:actors"])], 1) ∧
    requires_auth (Config.mk "dom.auth0.com" ["RS256"] "casting")
        (Except.ok (Jwks.mk [Jwk.mk (some "k1") (some "RSA") (some "sig") (some "n1") (some "AQAB")]))
        (fun _ =>
          TokenModel.mk true (some "k1") true "RS256" (fun _ => true)
            "casting" "https://dom.auth0.com/" false
            [("permissions", PyVal.plist ["get:actors"])])
        "get:actors" (fun payload (_ : Nat) => payload) none 0 =
      (POutcome.authError
        (AuthError.mk
          (ErrorBody.mk "authorization_header_missing" "Authorization header is expected.")
          401), 0) := by
  constructor
  · exact (C3_gate_composition _ _ _ "get:actors" _ (some "Bearer abc") 0).2.2.2.2.2
      "abc" [("permissions", PyVal.plist ["get:actors"])] true (by decide) (by decide) rfl
  · exact (C3_gate_composition _ _ _ "get:actors" _ none 0).1
      (AuthError.mk
        (ErrorBody.mk "authorization_header_missing" "Authorization header is expected.") 401)
      rfl

/-- **C9** (counterexample). The claim says the failure body's `message`
is the human-readable description.  The handler instead passes the whole
error dict (`ex.error`, code and description) as `message`: on the
`invalid_token` error the `message` field is the error object, not the
bare description string. -/
theorem C9_counterexample :
    (handle_auth_error
        (AuthError.mk (ErrorBody.mk "invalid_token" "Token is invalid.") 401)).1.message =
      MsgVal.mobj (ErrorBody.mk "invalid_token" "Token is invalid.") ∧
    (handle_auth_error
        (AuthError.mk (ErrorBody.mk "invalid_token" "Token is invalid.") 401)).1.message ≠
      MsgVal.mstr "Token is invalid." := by
  exact ⟨rfl, by decide⟩

/-- **C9** (amended). For every `AuthError`, the boundary handler
responds with the error's status code, and a body with `success` false,
`error` equal to that status, and `message` equal to the error's full
error object (machine-readable code together with the human-readable
description) — not the bare description string. -/
theorem C9_boundary_response (ex : AuthError) :
    handle_auth_error ex =
      (ErrResponse.mk false ex.status_code (MsgVal.mobj ex.error), ex.status_code) := rfl

end CastingAgency
